import Mathlib

/-!
Shallow embedding of the VideoManager thumbnail/timeline subsystem
(`thumbnail_generator.py`, `thumbnail_loader.py`, `ui_preview.py`).

External effects (subprocess runs, the filesystem, thread-set membership)
are made explicit: subprocess outcomes are environment parameters, the
filesystem is a list of existing file paths, and Python exceptions that a
function can raise are reflected in a `PyResult` return type.  Rational
numbers stand in for Python floats; all the numeric facts proved here are
exact at the rationals involved.
-/

namespace VideoManager

/-- Outcome of one `subprocess.run` call of ffprobe.  `ret rc num` is a
completed run with exit code `rc` whose stripped stdout parses as the
number `num` (or fails to parse, `none`); `timeout` is
`subprocess.TimeoutExpired`; `osError` is an `OSError` raised by the call. -/
inductive ProbeOutcome where
  | ret (returncode : Int) (stdoutNum : Option ℚ)
  | timeout
  | osError
deriving DecidableEq, Repr

/-- Python exceptions that escape the embedded functions. -/
inductive PyExn where
  | timeoutExpired
deriving DecidableEq, Repr

/-- Result of a Python call: a normal return or an uncaught exception. -/
inductive PyResult (α : Type) where
  | ok (a : α)
  | exn (e : PyExn)
deriving DecidableEq, Repr

/-- Embedding of `ThumbnailGenerator._get_video_duration` (and its public
wrapper `get_video_duration`).  `ffprobePath` is `FFPROBE_PATH` after
`_initialize_ffmpeg_paths`; `run` is the outcome of the ffprobe call.
The `try` block catches only `(ValueError, OSError)`: a parse failure or
`OSError` yields `None`, a nonzero exit falls through to `return None`,
but `subprocess.TimeoutExpired` is not caught and propagates. -/
def get_video_duration (ffprobePath : Option String) (run : ProbeOutcome) :
    PyResult (Option ℚ) :=
  match ffprobePath with
  | none => .ok none
  | some _ =>
    match run with
    | .timeout => .exn .timeoutExpired
    | .osError => .ok none
    | .ret rc num =>
      if rc = 0 then
        match num with
        | some d => .ok (some d)
        | none => .ok none
      else .ok none

/-- Python `round` with no digits argument: nearest integer, ties to even. -/
def pyRound (q : ℚ) : ℤ :=
  let d : ℤ := (q.den : ℤ)
  let f : ℤ := Int.ediv q.num d
  let r : ℤ := q.num - f * d
  if 2 * r < d then f
  else if d < 2 * r then f + 1
  else if f % 2 = 0 then f else f + 1

/-- Embedding of the frame-count computation of `ui_preview._load_timeline`
(lines 477-479): `num_frames = max(1, round(duration / 60))` then
`num_frames = min(num_frames, 120)`. -/
def timeline_num_frames (duration : ℚ) : ℤ :=
  min (max 1 (pyRound (duration / 60))) 120

/-- Embedding of the per-frame progress fraction of
`ui_preview._load_timeline` (line 488):
`prog = 0.05 + (i / (num_frames - 1)) * 0.9 if num_frames > 1 else 0.5`. -/
def tl_prog (i n : ℕ) : ℚ :=
  if 1 < n then 1 / 20 + ((i : ℚ) / ((n : ℚ) - 1)) * (9 / 10) else 1 / 2

/-- Embedding of the timestamp computation of `ui_preview._load_timeline`
(line 489): `timestamp = duration * prog`. -/
def tl_timestamp (d : ℚ) (i n : ℕ) : ℚ := d * tl_prog i n

/-- Outcome of one ffmpeg frame-extraction `subprocess.run` call.
`ret rc exists` is a completed run with exit code `rc` where `exists`
tells whether the output file exists after the run (the code checks
`result.returncode == 0 and Path(frame_path).exists()`); `timeout` is
`subprocess.TimeoutExpired`; `osError` covers the caught
`(OSError, ValueError)` case. -/
inductive ExtractOutcome where
  | ret (returncode : Int) (fileExists : Bool)
  | timeout
  | osError
deriving DecidableEq, Repr

/-- Observable result of `_extract_frame_with_retry`: the returned value,
the number of ffmpeg invocations performed, the list of backoff sleeps (in
seconds, in order), and whether the output file exists at the end. -/
structure ExtractResult where
  result : Option String
  calls : ℕ
  sleeps : List ℕ
  wroteFile : Bool
deriving DecidableEq, Repr

/-- Loop body of `ThumbnailGenerator._extract_frame_with_retry`
(lines 221-282) with `max_retries = 2`, `backoff_base = 1`.  `att a` is the
outcome of the ffmpeg run on attempt `a`; `attempt` is the current index
and `fuel` the remaining iterations of `range(max_retries + 1)`.
A completed run succeeds iff the exit code is 0 and the file exists,
otherwise `None` is returned with no retry; a timeout on attempt
`a < max_retries` sleeps `backoff_base * 2 ** a` seconds and retries, and
on the last attempt returns `None`; `(OSError, ValueError)` returns
`None`. -/
def extract_attempts (att : ℕ → ExtractOutcome) (framePath : String) :
    ℕ → ℕ → ExtractResult
  | _, 0 => ⟨none, 0, [], false⟩
  | attempt, fuel + 1 =>
    match att attempt with
    | .ret rc fileExists =>
      if rc = 0 ∧ fileExists then ⟨some framePath, 1, [], fileExists⟩
      else ⟨none, 1, [], fileExists⟩
    | .osError => ⟨none, 1, [], false⟩
    | .timeout =>
      if attempt < 2 then
        let rest := extract_attempts att framePath (attempt + 1) fuel
        ⟨rest.result, rest.calls + 1, 2 ^ attempt :: rest.sleeps, rest.wroteFile⟩
      else ⟨none, 1, [], false⟩

/-- Embedding of `ThumbnailGenerator._extract_frame_with_retry`: the
attempt loop entered at attempt 0 with the default budget of
`max_retries + 1 = 3` iterations. -/
def extract_frame_with_retry (att : ℕ → ExtractOutcome) (framePath : String) :
    ExtractResult :=
  extract_attempts att framePath 0 3

/-- The thumbnail cache directory `Path(tempfile.gettempdir()) / "videomanager_thumbs"`
of `ThumbnailGenerator._get_cache_dir`, with the temp directory fixed to `/tmp`. -/
def cache_dir : String := "/tmp/videomanager_thumbs"

/-- Embedding of `pathlib.Path(p).stem`: the final path component without
its last suffix (a leading dot alone does not start a suffix). -/
def stem (p : String) : String :=
  let name := (p.toList.splitOnP (fun c => c = '/' || c = '\\')).getLastD []
  match name.reverse.dropWhile (fun c => c ≠ '.') with
  | [] => String.mk name
  | _ :: [] => String.mk name
  | _ :: rest => String.mk rest.reverse

/-- Default thumbnail destination of `generate_thumbnail` (line 316):
`cache_dir / f"{Path(video_path).stem}_thumb.jpg"`. -/
def default_thumb_path (video_path : String) : String :=
  cache_dir ++ "/" ++ stem video_path ++ "_thumb.jpg"

/-- Default timeline directory (lines 404-408 and 467-471):
`cache_dir / f"{Path(video_path).stem}_timeline"`. -/
def timeline_dir (video_path : String) : String :=
  cache_dir ++ "/" ++ stem video_path ++ "_timeline"

/-- Python `f"{i:02d}"` for a natural `i`: zero-padded to width two. -/
def two_digit (i : ℕ) : String :=
  if i < 10 then "0" ++ toString i else toString i

/-- Python `int()` applied to an exact rational: truncation toward zero. -/
def pyInt (q : ℚ) : ℤ := Int.tdiv q.num (q.den : ℤ)

/-- The output file of `_extract_frame_with_retry` (line 228):
`Path(output_dir) / f"frame_{frame_index}_{int(timestamp)}.png"`. -/
def extract_png_path (dir : String) (frame_index : ℕ) (timestamp : ℚ) : String :=
  dir ++ "/frame_" ++ toString frame_index ++ "_" ++ toString (pyInt timestamp) ++ ".png"

/-- The cached frame file checked by `generate_single_timeline_frame`
(lines 411-412): `Path(output_dir) / f"frame_{frame_index:02d}.jpg"`. -/
def frame_cache_path (dir : String) (frame_index : ℕ) : String :=
  dir ++ "/frame_" ++ two_digit frame_index ++ ".jpg"

/-- Observable result of `generate_single_timeline_frame` or
`generate_thumbnail` together with the filesystem after the call
(as the list of existing file paths) and the number of ffmpeg
extractor invocations performed. -/
structure FrameCallOutput where
  result : Option String
  fs : List String
  calls : ℕ
deriving DecidableEq, Repr

/-- Embedding of `ThumbnailGenerator.generate_single_timeline_frame`
(lines 377-422).  `ffmpeg` is `FFMPEG_PATH` after initialization, `att` the
per-attempt extractor outcomes, `fs` the filesystem.  The function returns
`None` if ffmpeg is unresolved or the video is missing; it derives the
output directory when none is given, short-circuits when the cached frame
file already exists, and otherwise runs `_extract_frame_with_retry`. -/
def generate_single_timeline_frame (ffmpeg : Option String)
    (att : ℕ → ExtractOutcome) (fs : List String) (video_path : String)
    (frame_index : ℕ) (timestamp : ℚ) (output_dir : Option String) :
    FrameCallOutput :=
  match ffmpeg with
  | none => ⟨none, fs, 0⟩
  | some _ =>
    if video_path ∈ fs then
      let dir := output_dir.getD (timeline_dir video_path)
      let framePath := frame_cache_path dir frame_index
      if framePath ∈ fs then ⟨some framePath, fs, 0⟩
      else
        let png := extract_png_path dir frame_index timestamp
        let r := extract_frame_with_retry att png
        ⟨r.result, if r.wroteFile then png :: fs else fs, r.calls⟩
    else ⟨none, fs, 0⟩

/-- Environment of one `generate_thumbnail` call: the resolved tool paths,
the ffprobe outcome for the duration probe, and the ffmpeg outcome of the
thumbnail extraction run. -/
structure ThumbEnv where
  ffmpeg : Option String
  ffprobe : Option String
  probe : ProbeOutcome
  run : ExtractOutcome
deriving DecidableEq, Repr

/-- Observable result of `generate_thumbnail`: the returned value (or an
uncaught exception), the filesystem after the call, and the number of
ffmpeg extractor invocations. -/
structure ThumbOutput where
  result : PyResult (Option String)
  fs : List String
  calls : ℕ
deriving DecidableEq, Repr

/-- Embedding of `ThumbnailGenerator.generate_thumbnail` (lines 286-363).
In source order: return `None` if ffmpeg is unresolved; return `None` if
the video file does not exist; default the output path to
`{stem}_thumb.jpg` in the cache; return the output path if it already
exists; when no timestamp is given, probe the duration (a probe timeout
raises, since the probe is called outside the `try` block) and use 10% of
it when positive, else 5; finally run ffmpeg, succeeding iff the exit code
is 0 and the output file exists (timeouts and OS errors here are caught
and yield `None`). -/
def generate_thumbnail (env : ThumbEnv) (fs : List String)
    (video_path : String) (output_path : Option String)
    (timestamp : Option ℚ) : ThumbOutput :=
  match env.ffmpeg with
  | none => ⟨.ok none, fs, 0⟩
  | some _ =>
    if video_path ∈ fs then
      let outPath := output_path.getD (default_thumb_path video_path)
      if outPath ∈ fs then ⟨.ok (some outPath), fs, 0⟩
      else
        let ts : PyResult ℚ :=
          match timestamp with
          | some t => .ok t
          | none =>
            match get_video_duration env.ffprobe env.probe with
            | .exn e => .exn e
            | .ok (some d) => .ok (if 0 < d then d * (1 / 10) else 5)
            | .ok none => .ok 5
        match ts with
        | .exn e => ⟨.exn e, fs, 0⟩
        | .ok _ =>
          match env.run with
          | .ret rc fileExists =>
            let fs1 := if fileExists then outPath :: fs else fs
            if rc = 0 ∧ fileExists then ⟨.ok (some outPath), fs1, 1⟩
            else ⟨.ok none, fs1, 1⟩
          | .timeout => ⟨.ok none, fs, 1⟩
          | .osError => ⟨.ok none, fs, 1⟩
    else ⟨.ok none, fs, 0⟩

/-- Notification fired by a thumbnail worker: the per-request callback,
carrying the path and whether a photo was delivered. -/
inductive LoadEvent where
  | callback (path : String) (success : Bool)
deriving DecidableEq, Repr

/-- Python `set.add` on a duplicate-free list model of `loading_set`. -/
def pySetAdd (s : List String) (x : String) : List String :=
  if x ∈ s then s else x :: s

/-- State of a worker after processing one request: the `loading_set`, the
notifications fired, the worker's `photo` local binding (`none` while it
is still unbound), and whether an uncaught exception escaped the loop
body, killing the worker thread. -/
structure WorkerStep where
  loading : List String
  events : List LoadEvent
  photo : Option Bool
  crashed : Bool
deriving DecidableEq, Repr

/-- Embedding of the body of `ThumbnailLoader._worker_loop` (lines 66-106)
processing one popped request `(path, callback)`.  `loading` is the
`loading_set`; `photo` is the worker's `photo` variable left over from its
previous iteration (`none` if no iteration has bound it yet); `genOk`
tells whether generation and decoding produce a photo for a fresh request.
For a path already in the set the code runs `task_done` then `continue` —
but the `continue` (line 72) leaves the `try`, so its `finally` (line 98)
still executes: it discards the path from `loading_set` and evaluates
`callback(video_path, photo)`.  If `photo` is unbound this raises
`UnboundLocalError`, which neither `except (RuntimeError, tk.TclError)`
nor the loop's `except (RuntimeError, ValueError)` catches, and the worker
dies; otherwise the duplicate's callback fires with the stale photo.  For
a fresh path the code adds it, generates, and in `finally` discards it and
fires the callback exactly once with the new result. -/
def process_request (loading : List String) (photo : Option Bool)
    (path : String) (genOk : Bool) : WorkerStep :=
  if path ∈ loading then
    match photo with
    | none => ⟨loading.erase path, [], none, true⟩
    | some s => ⟨loading.erase path, [.callback path s], some s, false⟩
  else
    let l1 := pySetAdd loading path
    let l2 := l1.erase path
    ⟨l2, [.callback path genOk], some genOk, false⟩

/-- UI events of one `ui_preview._load_timeline` run, in order.
`loadingMsg` is the initial progress-label update; `frameReady i` is the
progressive `_add_timeline_frame` callback for frame `i`; `progressMsg i`
is the per-iteration progress-label update after frame `i`; `cacheWrite`
is the `timeline_cache` store; `completionMsg` / `noFramesMsg` are the
final progress-label updates; `updateUI n` is the single non-progressive
`_update_timeline_ui` callback delivering `n` frames. -/
inductive TLEvent where
  | loadingMsg
  | frameReady (i : ℕ)
  | progressMsg (i : ℕ)
  | cacheWrite
  | completionMsg
  | noFramesMsg
  | updateUI (frames : ℕ)
deriving DecidableEq, Repr

/-- The frame loop of `_load_timeline` (lines 481-516).  `stop i` is the
value of `timeline_stop_event.is_set()` observed at the top of iteration
`i`; `ok i` tells whether `generate_single_timeline_frame` returned a path
for frame `i` (its internals are modelled separately by
`generate_single_timeline_frame`).  Returns the emitted events, whether
the loop aborted on the stop flag, and the number of frames collected in
`frame_paths`. -/
def tl_loop (stop ok : ℕ → Bool) : ℕ → ℕ → List TLEvent × Bool × ℕ
  | _, 0 => ([], false, 0)
  | i, fuel + 1 =>
    if stop i then ([], true, 0)
    else
      let step := (if ok i then [TLEvent.frameReady i] else []) ++ [TLEvent.progressMsg i]
      let rest := tl_loop stop ok (i + 1) fuel
      (step ++ rest.1, rest.2.1, (if ok i then 1 else 0) + rest.2.2)

/-- Embedding of `ThumbnailGenerator.generate_timeline_frames`
(lines 425-490), abstracting each extracted frame path by its index.
Returns `[]` when a tool path is unresolved, the video is missing, or the
duration probe yields no positive duration (a probe timeout propagates);
on slow storage the requested count is halved with a floor of 3; otherwise
the successful frame indices are collected. -/
def generate_timeline_frames (ffmpeg ffprobe : Option String)
    (probe : ProbeOutcome) (slow : Bool) (extractOk : ℕ → Bool)
    (video_exists : Bool) (num_frames : ℕ) : PyResult (List ℕ) :=
  if ffmpeg = none ∨ ffprobe = none then .ok []
  else if !video_exists then .ok []
  else
    match get_video_duration ffprobe probe with
    | .exn e => .exn e
    | .ok none => .ok []
    | .ok (some d) =>
      if d ≤ 0 then .ok []
      else
        let n := if slow then max 3 (num_frames / 2) else num_frames
        .ok ((List.range n).filter extractOk)

/-- Environment of one `_load_timeline` run: the module-level
`FFMPEG_AVAILABLE` flag, the resolved tool paths, the (per-path,
deterministic within the run) ffprobe outcome, slow-storage detection,
the per-frame extraction success oracle, the stop-flag observations, and
whether `video.get('id')` is truthy. -/
structure TLEnv where
  ffmpegAvail : Bool
  ffmpeg : Option String
  ffprobe : Option String
  probe : ProbeOutcome
  slow : Bool
  extractOk : ℕ → Bool
  stop : ℕ → Bool
  hasId : Bool

/-- Embedding of `ui_preview._load_timeline` (lines 448-563) as the list
of UI events it emits.  If `FFMPEG_AVAILABLE` is false or the video path
is missing, a single `_update_timeline_ui` with no frames is scheduled.
Otherwise the loading message is shown and the duration probed: with a
positive duration the frame loop runs (aborting silently when the stop
flag is observed, with no cache write and no final message), then the
frames are cached when an id is present and some frame succeeded, and the
final progress message is emitted; without a positive duration the
fallback calls `generate_timeline_frames` with `num_frames=8` and
schedules a single `_update_timeline_ui` with whatever it returned. -/
def load_timeline (env : TLEnv) (video_exists : Bool) :
    PyResult (List TLEvent) :=
  if !env.ffmpegAvail then .ok [TLEvent.updateUI 0]
  else if !video_exists then .ok [TLEvent.updateUI 0]
  else
    match get_video_duration env.ffprobe env.probe with
    | .exn e => .exn e
    | .ok dv =>
      let fallback : PyResult (List TLEvent) :=
        match generate_timeline_frames env.ffmpeg env.ffprobe env.probe
            env.slow env.extractOk video_exists 8 with
        | .exn e => .exn e
        | .ok frames => .ok [TLEvent.loadingMsg, TLEvent.updateUI frames.length]
      match dv with
      | none => fallback
      | some d =>
        if 0 < d then
          let n := (timeline_num_frames d).toNat
          let run := tl_loop env.stop env.extractOk 0 n
          if run.2.1 then .ok (TLEvent.loadingMsg :: run.1)
          else
            let cacheEvs := if env.hasId ∧ 0 < run.2.2 then [TLEvent.cacheWrite] else []
            let finEvs := if 0 < run.2.2 then [TLEvent.completionMsg] else [TLEvent.noFramesMsg]
            .ok (TLEvent.loadingMsg :: (run.1 ++ cacheEvs ++ finEvs))
        else fallback

/-- Claim C1: `_get_video_duration` absorbs a nonzero prober exit, a parse
failure, and an `OSError` into `None`, but a timeout of the 5-second
subprocess call is NOT absorbed: `subprocess.TimeoutExpired` is outside
the caught `(ValueError, OSError)` classes and propagates as an exception,
contradicting the claim (and the function's own docstring). -/
theorem get_video_duration_timeout_raises :
    get_video_duration (some "/usr/bin/ffprobe") ProbeOutcome.timeout
      = PyResult.exn PyExn.timeoutExpired ∧
    (∀ p num, get_video_duration (some p) (ProbeOutcome.ret 1 num) = PyResult.ok none) ∧
    (∀ p, get_video_duration (some p) (ProbeOutcome.ret 0 none) = PyResult.ok none) ∧
    (∀ p, get_video_duration (some p) ProbeOutcome.osError = PyResult.ok none) :=
  ⟨rfl, fun _ _ => rfl, fun _ => rfl, fun _ => rfl⟩

/-- Claim C2: the cache-hit check of `generate_single_timeline_frame` looks
for `frame_<2-digit-index>.jpg`, but `_extract_frame_with_retry` stores its
result at `frame_<index>_<int(timestamp)>.png`, so a successful first call
never populates the checked cache key: the second call with the same source
and index invokes the extractor again (`calls = 1`, not 0). -/
theorem timeline_frame_cache_never_populated :
    (generate_single_timeline_frame (some "ffmpeg") (fun _ => ExtractOutcome.ret 0 true)
        ["/videos/a.mp4"] "/videos/a.mp4" 0 10 none).result
      = some "/tmp/videomanager_thumbs/a_timeline/frame_0_10.png" ∧
    (generate_single_timeline_frame (some "ffmpeg") (fun _ => ExtractOutcome.ret 0 true)
        ["/videos/a.mp4"] "/videos/a.mp4" 0 10 none).calls = 1 ∧
    (generate_single_timeline_frame (some "ffmpeg") (fun _ => ExtractOutcome.ret 0 true)
        (generate_single_timeline_frame (some "ffmpeg") (fun _ => ExtractOutcome.ret 0 true)
          ["/videos/a.mp4"] "/videos/a.mp4" 0 10 none).fs
        "/videos/a.mp4" 0 10 none).calls = 1 :=
  ⟨rfl, rfl, rfl⟩

/-- Claim C3: a popped request whose path is already in `loading_set` is
NOT silently dropped: the `continue` runs the `finally` block, which
discards the path — removing the original in-flight request's entry from
the set — and fires the duplicate request's callback with the worker's
stale photo; and when the worker's `photo` variable is still unbound, the
escaping `UnboundLocalError` kills the worker with no callback at all.
Either way the claim's "no callback is invoked and the original's callback
is the only notification" is violated. -/
theorem worker_duplicate_fires_callback :
    process_request ["/videos/a.mp4"] (some true) "/videos/a.mp4" true
      = ⟨[], [LoadEvent.callback "/videos/a.mp4" true], some true, false⟩ ∧
    process_request ["/videos/a.mp4"] none "/videos/a.mp4" true
      = ⟨[], [], none, true⟩ :=
  ⟨rfl, rfl⟩

/-- Claim C4: with the default budget (`max_retries = 2`),
`_extract_frame_with_retry` performs at most 3 tool invocations; timeouts
retry after backoff sleeps of 1 then 2 seconds and a third timeout
returns `None`; a completed run that is not a success (nonzero exit or
missing output file) returns `None` immediately after a single
invocation with no sleep. -/
theorem extract_frame_with_retry_budget (att : ℕ → ExtractOutcome) (p : String) :
    (extract_frame_with_retry att p).calls ≤ 3 ∧
    extract_frame_with_retry (fun _ => ExtractOutcome.timeout) p
      = ⟨none, 3, [1, 2], false⟩ ∧
    (∀ rc fe, att 0 = ExtractOutcome.ret rc fe → ¬(rc = 0 ∧ fe = true) →
      extract_frame_with_retry att p = ⟨none, 1, [], fe⟩) := by
  refine ⟨?_, rfl, fun rc fe h0 hne => ?_⟩
  · unfold extract_frame_with_retry
    cases h0 : att 0 <;> simp [extract_attempts, h0]
    · split <;> simp
    · cases h1 : att 1 <;> simp [extract_attempts, h1]
      · split <;> simp
      · cases h2 : att 2 <;> simp [extract_attempts, h2]
        split <;> simp
  · unfold extract_frame_with_retry
    simp [extract_attempts, h0, hne]

/-- Claim C4 witness: a nonzero exit on the first attempt yields `None`
after exactly one invocation and no sleep, within the ≤ 3 budget. -/
theorem extract_frame_with_retry_budget_witness :
    (extract_frame_with_retry (fun _ => ExtractOutcome.ret 1 false) "f.png").calls ≤ 3 ∧
    extract_frame_with_retry (fun _ => ExtractOutcome.ret 1 false) "f.png"
      = ⟨none, 1, [], false⟩ :=
  ⟨(extract_frame_with_retry_budget (fun _ => ExtractOutcome.ret 1 false) "f.png").1,
   (extract_frame_with_retry_budget (fun _ => ExtractOutcome.ret 1 false) "f.png").2.2
     1 false rfl (by decide)⟩

/-- Claim C5 counterexample: with duration 1 and 2 frames, frame 0 has
timestamp exactly `0.05 * duration`, which does not lie strictly inside
the open interval `(0.05*d, 0.95*d)` as the claim states. -/
theorem tl_timestamp_hits_open_bound :
    tl_timestamp 1 0 2 = (1 / 20 : ℚ) * 1 ∧
    ¬ ((1 / 20 : ℚ) * 1 < tl_timestamp 1 0 2) := by
  constructor <;> norm_num [tl_timestamp, tl_prog]

/-- Claim C5 (amended): for `n > 1` the timestamp of frame `i` equals
`d * (0.05 + (i/(n-1)) * 0.9)`, for `n = 1` it equals `d * 0.5`, the
timestamps are strictly increasing in `i`, and each lies in the CLOSED
interval `[0.05*d, 0.95*d]` (the endpoints are attained at `i = 0` and
`i = n-1`). -/
theorem tl_timestamp_amended (d : ℚ) (n i j : ℕ) (hd : 0 < d) :
    (1 < n → tl_timestamp d i n = d * (1 / 20 + ((i : ℚ) / ((n : ℚ) - 1)) * (9 / 10))) ∧
    (n = 1 → tl_timestamp d i n = d * (1 / 2)) ∧
    (1 < n → i < j → j < n → tl_timestamp d i n < tl_timestamp d j n) ∧
    (1 < n → i < n →
      d * (1 / 20) ≤ tl_timestamp d i n ∧ tl_timestamp d i n ≤ d * (19 / 20)) := by
  refine ⟨fun h => by simp [tl_timestamp, tl_prog, h], fun h => by simp [tl_timestamp, tl_prog, h], ?_, ?_⟩
  · intro h1 hij hjn
    have hc : (0 : ℚ) < (n : ℚ) - 1 := by
      have : (1 : ℚ) < (n : ℚ) := by exact_mod_cast h1
      linarith
    have hcast : (i : ℚ) < (j : ℚ) := by exact_mod_cast hij
    have hij2 : (i : ℚ) / ((n : ℚ) - 1) < (j : ℚ) / ((n : ℚ) - 1) := by
      have := mul_lt_mul_of_pos_right hcast (inv_pos.mpr hc)
      simpa [div_eq_mul_inv] using this
    simp only [tl_timestamp, tl_prog, h1, if_true]
    have hsum : (1 : ℚ) / 20 + ((i : ℚ) / ((n : ℚ) - 1)) * (9 / 10)
        < 1 / 20 + ((j : ℚ) / ((n : ℚ) - 1)) * (9 / 10) := by nlinarith
    exact mul_lt_mul_of_pos_left hsum hd
  · intro h1 hin
    have hc : (0 : ℚ) < (n : ℚ) - 1 := by
      have : (1 : ℚ) < (n : ℚ) := by exact_mod_cast h1
      linarith
    have h0x : (0 : ℚ) ≤ (i : ℚ) / ((n : ℚ) - 1) :=
      div_nonneg (Nat.cast_nonneg i) hc.le
    have h1x : (i : ℚ) / ((n : ℚ) - 1) ≤ 1 := by
      rw [div_le_one hc]
      have h2 : (i : ℚ) + 1 ≤ (n : ℚ) := by exact_mod_cast Nat.succ_le_of_lt hin
      linarith
    simp only [tl_timestamp, tl_prog, h1, if_true]
    constructor
    · apply mul_le_mul_of_nonneg_left ?_ hd.le
      nlinarith
    · apply mul_le_mul_of_nonneg_left ?_ hd.le
      nlinarith

/-- Claim C5 witness: with duration 1 and two frames, the timestamp of
frame 0 is strictly below that of frame 1. -/
theorem tl_timestamp_amended_witness : tl_timestamp 1 0 2 < tl_timestamp 1 1 2 :=
  (tl_timestamp_amended 1 2 0 1 (by norm_num)).2.2.1 (by norm_num) (by norm_num)
    (by norm_num)

/-- Claim C6: for a positive probed duration the frame count equals
`clamp(round(d / 60), 1, 120)`, and in particular 1800 s yields 30 frames,
60 s yields 1 frame, and 36000 s yields 120 frames. -/
theorem timeline_num_frames_spec (d : ℚ) (hd : 0 < d) :
    timeline_num_frames d = max 1 (min (pyRound (d / 60)) 120) ∧
    timeline_num_frames 1800 = 30 ∧
    timeline_num_frames 60 = 1 ∧
    timeline_num_frames 36000 = 120 := by
  refine ⟨?_, by norm_num [timeline_num_frames, pyRound],
    by norm_num [timeline_num_frames, pyRound],
    by norm_num [timeline_num_frames, pyRound]⟩
  rw [timeline_num_frames, max_min_distrib_left]
  norm_num

/-- Claim C6 witness: the clamp identity and the three examples at
duration 1800 s. -/
theorem timeline_num_frames_spec_witness :
    timeline_num_frames 1800 = max 1 (min (pyRound (1800 / 60)) 120) :=
  (timeline_num_frames_spec 1800 (by norm_num)).1

/-- Claim C9: when the duration probe deterministically fails (here: the
prober exits nonzero), the fallback branch of `_load_timeline` schedules a
single non-progressive `_update_timeline_ui` callback, but it delivers 0
frames rather than 8: `generate_timeline_frames` re-probes the duration,
fails again, and returns an empty list before any extraction — even
though every frame extraction would have succeeded. -/
theorem load_timeline_fallback_zero_frames :
    load_timeline ⟨true, some "ffmpeg", some "ffprobe", ProbeOutcome.ret 1 none,
        false, fun _ => true, fun _ => false, true⟩ true
      = PyResult.ok [TLEvent.loadingMsg, TLEvent.updateUI 0] ∧
    generate_timeline_frames (some "ffmpeg") (some "ffprobe")
        (ProbeOutcome.ret 1 none) false (fun _ => true) true 8
      = PyResult.ok [] :=
  ⟨rfl, rfl⟩

/-- Helper for claim C7: if the stop flag is monotone (once set it stays
set) and is set at index `k`, then any frame loop that would still reach
index `k` aborts, and every event it emitted belongs to a frame index
strictly below `k`. -/
theorem tl_loop_stop_spec (stop ok : ℕ → Bool)
    (hmono : ∀ i j, i ≤ j → stop i = true → stop j = true)
    (k : ℕ) (hk : stop k = true) :
    ∀ fuel start, start ≤ k → k < start + fuel →
      (tl_loop stop ok start fuel).2.1 = true ∧
      ∀ e ∈ (tl_loop stop ok start fuel).1,
        ∃ i, i < k ∧ (e = TLEvent.frameReady i ∨ e = TLEvent.progressMsg i) := by
  intro fuel
  induction fuel with
  | zero => intro start hsk hlt; omega
  | succ m ih =>
    intro start hsk hlt
    by_cases hs : stop start = true
    · simp [tl_loop, hs]
    · have hsklt : start < k := by
        rcases Nat.lt_or_ge start k with h | h
        · exact h
        · exact absurd (hmono k start h hk) hs
      have hrec := ih (start + 1) (by omega) (by omega)
      constructor
      · simpa [tl_loop, hs] using hrec.1
      · intro e he
        simp only [tl_loop, hs, Bool.false_eq_true, if_false, List.append_assoc,
          List.mem_append] at he
        rcases he with he | he | he
        · rcases (by cases hok : ok start <;> simp [hok] at he ⊢; exact he :
            e = TLEvent.frameReady start) with rfl
          exact ⟨start, hsklt, Or.inl rfl⟩
        · simp at he
          exact ⟨start, hsklt, Or.inr (by rw [he])⟩
        · exact hrec.2 e he

/-- Claim C7: within a run with a positive probed duration, if the
cancellation flag (monotone: once set it stays set) is observed set at
frame index `k` and index `k` lies within the run, then no frame-ready
callback is scheduled for any index ≥ `k`, no timeline cache entry is
written, and no completion message and no `_update_timeline_ui` call is
emitted for that run. -/
theorem load_timeline_cancelled (env : TLEnv) (d : ℚ) (k : ℕ) (evs : List TLEvent)
    (hmono : ∀ i j, i ≤ j → env.stop i = true → env.stop j = true)
    (hk : env.stop k = true)
    (hff : env.ffmpegAvail = true)
    (hprobe : get_video_duration env.ffprobe env.probe = .ok (some d))
    (hd : 0 < d)
    (hkn : k < (timeline_num_frames d).toNat)
    (hres : load_timeline env true = .ok evs) :
    (∀ i, k ≤ i → TLEvent.frameReady i ∉ evs) ∧
    TLEvent.cacheWrite ∉ evs ∧
    TLEvent.completionMsg ∉ evs ∧
    (∀ m, TLEvent.updateUI m ∉ evs) := by
  have hloop := tl_loop_stop_spec env.stop env.extractOk hmono k hk
    ((timeline_num_frames d).toNat) 0 (Nat.zero_le k) (by omega)
  rw [load_timeline, hff] at hres
  simp only [Bool.not_true, Bool.false_eq_true, if_false, hprobe] at hres
  rw [if_pos hd, if_pos hloop.1] at hres
  have hevs : evs = TLEvent.loadingMsg ::
      (tl_loop env.stop env.extractOk 0 ((timeline_num_frames d).toNat)).1 := by
    cases hres
    rfl
  subst hevs
  refine ⟨fun i hi hmem => ?_, fun hmem => ?_, fun hmem => ?_, fun m hmem => ?_⟩
  · rw [List.mem_cons] at hmem
    rcases hmem with h | hmem
    · exact absurd h (by simp)
    · obtain ⟨i2, hi2, h | h⟩ := hloop.2 _ hmem
      · simp only [TLEvent.frameReady.injEq] at h
        omega
      · exact absurd h (by simp)
  · rw [List.mem_cons] at hmem
    rcases hmem with h | hmem
    · exact absurd h (by simp)
    · obtain ⟨i2, hi2, h | h⟩ := hloop.2 _ hmem <;> simp at h
  · rw [List.mem_cons] at hmem
    rcases hmem with h | hmem
    · exact absurd h (by simp)
    · obtain ⟨i2, hi2, h | h⟩ := hloop.2 _ hmem <;> simp at h
  · rw [List.mem_cons] at hmem
    rcases hmem with h | hmem
    · exact absurd h (by simp)
    · obtain ⟨i2, hi2, h | h⟩ := hloop.2 _ hmem <;> simp at h

/-- Claim C7 witness: duration 120 s gives a 2-frame run; the flag becomes
set at index 1, the run aborts there, and its event list (frame 0 only)
contains no cache write. -/
theorem load_timeline_cancelled_witness :
    TLEvent.cacheWrite ∉ [TLEvent.loadingMsg, TLEvent.frameReady 0, TLEvent.progressMsg 0] := by
  have hn : timeline_num_frames 120 = 2 := by norm_num [timeline_num_frames, pyRound]
  have hres : load_timeline
      ⟨true, some "ffmpeg", some "ffprobe", ProbeOutcome.ret 0 (some 120), false,
        fun _ => true, fun i => decide (1 ≤ i), true⟩ true
      = .ok [TLEvent.loadingMsg, TLEvent.frameReady 0, TLEvent.progressMsg 0] := by
    rw [load_timeline]
    norm_num [get_video_duration, hn, tl_loop]
  exact (load_timeline_cancelled
    ⟨true, some "ffmpeg", some "ffprobe", ProbeOutcome.ret 0 (some 120), false,
      fun _ => true, fun i => decide (1 ≤ i), true⟩
    120 1 [TLEvent.loadingMsg, TLEvent.frameReady 0, TLEvent.progressMsg 0]
    (by intro i j hij hi
        simp only [decide_eq_true_eq] at hi ⊢
        omega)
    (by decide) rfl rfl (by norm_num)
    (by rw [hn]; decide) hres).2.1

/-- Claim C8: if a first `generate_thumbnail` call with no explicit output
path succeeds and returns `p`, a second call with the same source on the
resulting filesystem returns the same `p` with no extractor invocation:
the backing tool is invoked at most once across the two calls. -/
theorem generate_thumbnail_idempotent (env : ThumbEnv) (fs : List String)
    (vp p : String)
    (h : (generate_thumbnail env fs vp none none).result = .ok (some p)) :
    (generate_thumbnail env (generate_thumbnail env fs vp none none).fs
        vp none none).result = .ok (some p) ∧
    (generate_thumbnail env (generate_thumbnail env fs vp none none).fs
        vp none none).calls = 0 ∧
    (generate_thumbnail env fs vp none none).calls +
      (generate_thumbnail env (generate_thumbnail env fs vp none none).fs
        vp none none).calls ≤ 1 := by
  obtain ⟨ff, fp, pr, rn⟩ := env
  cases ff with
  | none => simp [generate_thumbnail] at h
  | some f =>
    by_cases hvp : vp ∈ fs
    · by_cases hout : default_thumb_path vp ∈ fs
      · have h1 : generate_thumbnail ⟨some f, fp, pr, rn⟩ fs vp none none
            = ⟨.ok (some (default_thumb_path vp)), fs, 0⟩ := by
          simp [generate_thumbnail, hvp, hout]
        rw [h1] at h
        simp only [PyResult.ok.injEq, Option.some.injEq] at h
        subst h
        rw [h1]
        simp [h1]
      · rcases hpr : get_video_duration fp pr with dv | e
        · cases rn with
          | timeout =>
            have h1 : generate_thumbnail ⟨some f, fp, pr, ExtractOutcome.timeout⟩
                fs vp none none = ⟨.ok none, fs, 1⟩ := by
              rcases dv with _ | d
              · simp [generate_thumbnail, hvp, hout, hpr]
              · by_cases hd : 0 < d <;> simp [generate_thumbnail, hvp, hout, hpr, hd]
            rw [h1] at h
            simp at h
          | osError =>
            have h1 : generate_thumbnail ⟨some f, fp, pr, ExtractOutcome.osError⟩
                fs vp none none = ⟨.ok none, fs, 1⟩ := by
              rcases dv with _ | d
              · simp [generate_thumbnail, hvp, hout, hpr]
              · by_cases hd : 0 < d <;> simp [generate_thumbnail, hvp, hout, hpr, hd]
            rw [h1] at h
            simp at h
          | ret rc fe =>
            by_cases hsucc : rc = 0 ∧ fe = true
            · obtain ⟨rfl, rfl⟩ := hsucc
              have h1 : generate_thumbnail ⟨some f, fp, pr, ExtractOutcome.ret 0 true⟩
                  fs vp none none
                  = ⟨.ok (some (default_thumb_path vp)), default_thumb_path vp :: fs, 1⟩ := by
                rcases dv with _ | d
                · simp [generate_thumbnail, hvp, hout, hpr]
                · by_cases hd : 0 < d <;> simp [generate_thumbnail, hvp, hout, hpr, hd]
              rw [h1] at h
              simp only [PyResult.ok.injEq, Option.some.injEq] at h
              subst h
              have h2 : generate_thumbnail ⟨some f, fp, pr, ExtractOutcome.ret 0 true⟩
                  (default_thumb_path vp :: fs) vp none none
                  = ⟨.ok (some (default_thumb_path vp)), default_thumb_path vp :: fs, 0⟩ := by
                simp [generate_thumbnail, hvp]
              rw [h1, h2]
              simp
            · have h1 : generate_thumbnail ⟨some f, fp, pr, ExtractOutcome.ret rc fe⟩
                  fs vp none none
                  = ⟨.ok none, if fe = true then default_thumb_path vp :: fs else fs, 1⟩ := by
                rcases dv with _ | d
                · simp [generate_thumbnail, hvp, hout, hpr, hsucc]
                · by_cases hd : 0 < d <;> simp [generate_thumbnail, hvp, hout, hpr, hd, hsucc]
              rw [h1] at h
              simp at h
        · have h1 : generate_thumbnail ⟨some f, fp, pr, rn⟩ fs vp none none
              = ⟨.exn e, fs, 0⟩ := by
            simp [generate_thumbnail, hvp, hout, hpr]
          rw [h1] at h
          simp at h
    · simp [generate_thumbnail, hvp] at h

/-- Claim C8 witness: a successful first call on a filesystem holding only
the video; the second call returns the same cached path with no call. -/
theorem generate_thumbnail_idempotent_witness :
    (generate_thumbnail ⟨some "f", some "p", ProbeOutcome.ret 0 (some 100),
        ExtractOutcome.ret 0 true⟩
      (generate_thumbnail ⟨some "f", some "p", ProbeOutcome.ret 0 (some 100),
          ExtractOutcome.ret 0 true⟩
        ["/videos/a.mp4"] "/videos/a.mp4" none none).fs
      "/videos/a.mp4" none none).result
    = PyResult.ok (some "/tmp/videomanager_thumbs/a_thumb.jpg") :=
  (generate_thumbnail_idempotent
    ⟨some "f", some "p", ProbeOutcome.ret 0 (some 100), ExtractOutcome.ret 0 true⟩
    ["/videos/a.mp4"] "/videos/a.mp4" "/tmp/videomanager_thumbs/a_thumb.jpg" rfl).1

/-- Claim C10: `generate_thumbnail` returns `None` with no extractor
invocation (and an unchanged filesystem) whenever ffmpeg is unresolved or
the source video does not exist — for EVERY filesystem, so in particular
even when the default destination thumbnail already exists in the cache,
because these checks precede the cache-hit short circuit. -/
theorem generate_thumbnail_prechecks (env : ThumbEnv) (fs : List String)
    (vp : String) (op : Option String) (ts : Option ℚ)
    (h : env.ffmpeg = none ∨ vp ∉ fs) :
    (generate_thumbnail env fs vp op ts).result = .ok none ∧
    (generate_thumbnail env fs vp op ts).calls = 0 ∧
    (generate_thumbnail env fs vp op ts).fs = fs := by
  obtain ⟨ff, fp, pr, rn⟩ := env
  rcases h with h | h
  · simp only at h
    subst h
    simp [generate_thumbnail]
  · cases ff <;> simp [generate_thumbnail, h]

/-- Claim C10 witness: the video is missing while its default destination
thumbnail is already cached; the call still returns `None`. -/
theorem generate_thumbnail_prechecks_witness :
    (generate_thumbnail ⟨some "f", some "p", ProbeOutcome.ret 0 none,
        ExtractOutcome.ret 0 true⟩
      [default_thumb_path "/videos/a.mp4"] "/videos/a.mp4" none none).result
    = PyResult.ok none :=
  (generate_thumbnail_prechecks
    ⟨some "f", some "p", ProbeOutcome.ret 0 none, ExtractOutcome.ret 0 true⟩
    [default_thumb_path "/videos/a.mp4"] "/videos/a.mp4" none none
    (Or.inr (by decide))).1

end VideoManager
